import Mathlib

/-!
Verification development for the LoRA adapter composition and weight-patching
engine of `modules/lora/networks.py` (SD.Next).

Shallow embedding conventions:
* Python strings are modelled as `List Char` (`Str`), with structural
  re-implementations of the `str` operations the source uses
  (`split('.')`, `'.'.join`, `str.replace`, `str.lower`, `startswith`),
  so that every definition is executable by kernel reduction.
* Tensors are modelled as single exact scalars (`Int`); adapter deltas
  combine additively, which is the only tensor algebra the engine itself
  performs (`+`, negation, cloning).  Device placement, dtype, progress
  bars and logging are not modelled.  Float multipliers are modelled as
  exact scalars (`Int`).
* Python `dict`s (which preserve insertion order and update in place) are
  modelled as association lists with `lookupA` / `insertA`.
* The per-module `calc_updown` implementations live in the
  `network_lora` / `network_hada` / … modules, outside this file's source;
  per the spec (§4.3) a module either raises (`CalcOutcome.raises`) or
  returns a `(delta_weight, delta_bias|null)` pair that does not depend on
  the base weight's value, so a module is modelled by its stored outcome.
-/

namespace SDNext

/-- Python strings, modelled as their character sequences. -/
abbrev Str := List Char

/-- Coerce a Lean string literal into the `Str` model. -/
def str (s : String) : Str := s.data

/-- Auxiliary for `splitDot`: accumulates the current segment (reversed). -/
def splitDotAux : List Char → List Char → List Str
  | [], acc => [acc.reverse]
  | c :: rest, acc =>
    if c = ('.') then acc.reverse :: splitDotAux rest []
    else splitDotAux rest (c :: acc)

/-- Python's `s.split('.')` (no maxsplit): split on every dot, keeping empty
segments, never returning an empty list. -/
def splitDot (s : Str) : List Str := splitDotAux s []

/-- Python's `sep.join(parts)` for a one-character separator. -/
def joinWith (sep : Char) : List Str → Str
  | [] => []
  | [x] => x
  | x :: y :: rest => x ++ sep :: joinWith sep (y :: rest)

/-- Fuel-driven worker for `replaceStr`; the fuel is the length of the
remaining text, which strictly bounds the recursion because every step
consumes at least one character (the patterns used are non-empty). -/
def replaceFuel (pat rep : Str) : Nat → Str → Str
  | 0, s => s
  | _ + 1, [] => []
  | n + 1, c :: rest =>
    if pat.isPrefixOf (c :: rest) then
      rep ++ replaceFuel pat rep n (List.drop (pat.length - 1) rest)
    else c :: replaceFuel pat rep n rest

/-- Python's `s.replace(pat, rep)`: replace every non-overlapping occurrence,
left to right (for non-empty `pat`). -/
def replaceStr (s pat rep : Str) : Str := replaceFuel pat rep s.length s

/-- Python's `s.lower()` for the ASCII names used by the engine. -/
def toLowerStr (s : Str) : Str := s.map Char.toLower

/-- Tensors are modelled as exact scalars; the engine only clones them and
combines deltas additively. -/
abbrev Tensor := Int

/-- Multiplier values (`te_multiplier`, `unet_multiplier`, `dyn_dim`),
modelled as exact scalars. -/
abbrev Mult := Int

/-- The 4-bit quantization types recognized by the engine
(`networks.py:321`, `networks.py:418`). -/
inductive QuantType where
  | nf4
  | fp4
  deriving DecidableEq

/-- A live weight parameter: its numeric content together with its
quantization tag (`None` for a plain tensor).  `bnb.functional.dequantize_4bit`
and `bnb.nn.Params4bit` are modelled as value-preserving changes of the tag,
which is exact in this scalar model (the source is exact only up to
quantization error, which the spec allows as "floating-point tolerance"). -/
structure WeightParam where
  value : Tensor
  quant : Option QuantType
  deriving DecidableEq

/-- The three-state backup attribute of a patched layer
(`network_weights_backup` / `network_bias_backup`): attribute absent or
`None`; the boolean `True` meaning "no copy kept, recombine in place"; or an
actual snapshot. -/
inductive BackupSlot (α : Type) where
  | noneB : BackupSlot α
  | flag : BackupSlot α
  | snap : α → BackupSlot α
  deriving DecidableEq

/-- A layer signature: the ordered tuples
`(name, te_multiplier, unet_multiplier, dyn_dim)` of the active adapters
(`networks.py:529`). -/
abbrev Signature := List (Str × Mult × Mult × Option Mult)

/-- Ordered-dictionary lookup on an association list. -/
def lookupA {α : Type} : List (Str × α) → Str → Option α
  | [], _ => none
  | (k, v) :: rest, key => if k = key then some v else lookupA rest key

/-- Ordered-dictionary assignment `d[key] = v`: update in place if the key is
present (keeping its insertion position, as Python dicts do), else append. -/
def insertA {α : Type} : List (Str × α) → Str → α → List (Str × α)
  | [], key, v => [(key, v)]
  | (k, w) :: rest, key, v =>
    if k = key then (k, v) :: rest else (k, w) :: insertA rest key v

-- section: adapter registry (`list_available_networks`, `networks.py:191-226`)

/-- The identity record a directory scan builds for one on-disk adapter file
(`network.NetworkOnDisk`): normalized filename-derived name, human-facing
alias, and short content hash (empty when not yet computed, which is falsy in
the source's `if entry.shorthash:`). -/
structure NetworkOnDisk where
  name : Str
  aliasName : Str
  shorthash : Str
  deriving DecidableEq

/-- The four registry indices rebuilt by every scan (`networks.py:28-37`). -/
structure Registry where
  available_networks : List (Str × NetworkOnDisk)
  available_network_aliases : List (Str × NetworkOnDisk)
  forbidden_network_aliases : List (Str × Nat)
  available_network_hash_lookup : List (Str × NetworkOnDisk)
  deriving DecidableEq

/-- Configuration options consumed by the engine (`shared.opts`). -/
structure Opts where
  lora_fuse_diffusers : Bool
  lora_low_memory : Bool
  lora_offload_backup : Bool
  lora_in_memory_limit : Nat
  lora_preferred_name : Str
  extra_networks_default_multiplier : Mult
  deriving DecidableEq

/-- Registry state right after `list_available_networks` clears all four
indices and seeds `forbidden_network_aliases` (`networks.py:193-197`). -/
def initialRegistry : Registry :=
  { available_networks := []
    available_network_aliases := []
    forbidden_network_aliases := [(str ("none"), 1), (str ("Addams"), 1)]
    available_network_hash_lookup := [] }

/-- One step of the scan: `add_network(filename)` (`networks.py:201-218`),
given the already-constructed identity record (file probing, name
normalization and the `OSError` skip are outside the registry logic).
Registers the entry by exact name; if its alias is already an alias-index
key, marks the lowercased alias forbidden; then registers the entry in the
alias index under its name or alias according to `lora_preferred_name`; and
indexes a non-empty short hash. -/
def add_network (opts : Opts) (reg : Registry) (entry : NetworkOnDisk) : Registry :=
  -- the source updates the four indices in sequence; each index is written at
  -- most once, and the alias-conflict test reads the alias index before the
  -- new entry is inserted into it, so the sequential update factors per field
  { available_networks := insertA reg.available_networks entry.name entry
    available_network_aliases :=
      if opts.lora_preferred_name = str ("filename") then
        insertA reg.available_network_aliases entry.name entry
      else insertA reg.available_network_aliases entry.aliasName entry
    forbidden_network_aliases :=
      if (lookupA reg.available_network_aliases entry.aliasName).isSome then
        insertA reg.forbidden_network_aliases (toLowerStr entry.aliasName) 1
      else reg.forbidden_network_aliases
    available_network_hash_lookup :=
      if entry.shorthash ≠ [] then
        insertA reg.available_network_hash_lookup entry.shorthash entry
      else reg.available_network_hash_lookup }

/-- Modelled from the spec: the resolution step that consults
`forbidden_network_aliases` is not in this file's source — it lives in
`modules/lora/network.py` (`NetworkOnDisk.get_alias`) and the extra-networks
prompt handler, which only `networks.py`'s `network_load` calls into via
`available_network_aliases`.  Per the spec's alias invariant (§3: a forbidden
alias "must fail closed rather than silently pick one") and §4.1 (the scan
"builds three indices: name→identity, alias→identity, …" and `resolve`
"returns the identity for a requested name, or null"): a request whose
lowercasing is a forbidden alias resolves to nothing; otherwise the alias
index is consulted first, then the exact-name index. -/
def resolve_network (reg : Registry) (requested : Str) : Option NetworkOnDisk :=
  if (lookupA reg.forbidden_network_aliases (toLowerStr requested)).isSome then none
  else
    match lookupA reg.available_network_aliases requested with
    | some e => some e
    | none => lookupA reg.available_networks requested

-- section: module-type dispatch (`networks.py:39-48`, `networks.py:140-151`)

/-- The eight pluggable module variants, in the fixed order of the
`module_types` list (`networks.py:39-48`). -/
inductive ModuleTypeTag where
  | lora
  | hada
  | ia3
  | oft
  | lokr
  | full
  | norm
  | glora
  deriving DecidableEq

/-- The fixed priority list `module_types` (`networks.py:39-48`). -/
def module_types : List ModuleTypeTag :=
  [.lora, .hada, .ia3, .oft, .lokr, .full, .norm, .glora]

/-- Stand-in for a constructed module instance; the `create_module` bodies
live in the per-variant modules outside this file's source, so a constructor
is a pure function handed in as a parameter (side-effect-free by
construction, as the spec requires of `create` on rejection). -/
abbrev ModuleHandle := Nat

/-- The dispatch loop of `load_safetensors` (`networks.py:142-147`): try each
variant in list order, and the first whose `create_module` accepts the weight
bundle wins; later variants are never consulted. -/
def dispatchList (create : ModuleTypeTag → List (Str × Tensor) → Option ModuleHandle)
    (w : List (Str × Tensor)) : List ModuleTypeTag → Option (ModuleTypeTag × ModuleHandle)
  | [] => none
  | t :: rest =>
    match create t w with
    | some m => some (t, m)
    | none => dispatchList create w rest

/-- Dispatch over the full fixed priority list. -/
def createFirst (create : ModuleTypeTag → List (Str × Tensor) → Option ModuleHandle)
    (w : List (Str × Tensor)) : Option (ModuleTypeTag × ModuleHandle) :=
  dispatchList create w module_types

-- section: key parsing and matching (`load_safetensors`, `networks.py:94-162`)

/-- Outcome of parsing one raw state-dict key (`networks.py:118-132`):
a bundled-embedding entry, a `(layer-key-without-network-parts, network-part)`
pair, or a malformed key on which the source raises
(`IndexError` on `parts[1]`, or `ValueError` unpacking `split('.', 1)`). -/
inductive ParsedKey where
  | bundle (embName vecName : Str)
  | layerKey (keyNoNet part : Str)
  | malformed
  deriving DecidableEq

/-- Parse one raw key exactly as the loop body does (`networks.py:119-132`):
`bundle_emb` entries are routed to the embeddings bundle; keys with more than
5 dot-separated parts take the "messy handler for diffusers peft lora" path
(join all but the last two parts with `_`, prefix `lora_` if missing, and
re-label `lora_A`/`lora_B` to `lora_down`/`lora_up` in the joined last two
parts); anything else splits once at the first dot. -/
def parseKey (key : Str) : ParsedKey :=
  let parts := splitDot key
  match parts with
  | [] => .malformed
  | p0 :: rest =>
    if p0 = str ("bundle_emb") then
      match rest with
      | [] => .malformed
      | emb :: rest2 =>
        let vecName := match rest2 with
          | [] => emb
          | _ :: _ => joinWith ('.') rest2
        .bundle emb vecName
    else if parts.length > 5 then
      let knp0 := joinWith ('_') (parts.take (parts.length - 2))
      let knp := if (str ("lora_")).isPrefixOf knp0 then knp0 else str ("lora_") ++ knp0
      let np := replaceStr
        (replaceStr (joinWith ('.') (parts.drop (parts.length - 2)))
          (str ("lora_A")) (str ("lora_down")))
        (str ("lora_B")) (str ("lora_up"))
      .layerKey knp np
    else
      match rest with
      | [] => .malformed
      | _ :: _ => .layerKey p0 (joinWith ('.') rest)

/-- Accumulator of the key-matching loop (`networks.py:114-116`):
`keys_failed_to_match` is kept as its aggregate count (the source stores the
full dict but reports `len(...)`, listing entries only under debug),
`matched_networks` maps sd-key to its `w` sub-dict, `bundle_embeddings` maps
embedding name to its vectors. -/
structure MatchState where
  failed : Nat
  matched : List (Str × List (Str × Tensor))
  bundles : List (Str × List (Str × Tensor))
  deriving DecidableEq

/-- Update a nested dict entry: `outer[k]` gets `inner ↦ v` assigned
(creating `outer[k]` as a fresh one-entry dict if absent), as in
`matched_networks[key].w[network_part] = weight` and the
`bundle_embeddings` update. -/
def insertInner (outer : List (Str × List (Str × Tensor))) (k inner : Str) (v : Tensor) :
    List (Str × List (Str × Tensor)) :=
  match lookupA outer k with
  | some d => insertA outer k (insertA d inner v)
  | none => insertA outer k [(inner, v)]

/-- Either a Python exception escaping the loader, or a normal result. -/
inductive LoadOutcome (α : Type) where
  | raised
  | ok (r : α)
  deriving DecidableEq

/-- One iteration of the key loop (`networks.py:118-139`), with
`convert : Str → Option Str` standing for `KeyConvert` plus the base model's
layer table (the `lora_convert` module is outside this file's source):
`some sdKey` means the prefix resolved to an actual layer, `none` means the
key failed to match (accumulated, not fatal). -/
def matchStep (convert : Str → Option Str) (st : MatchState) (kv : Str × Tensor) :
    LoadOutcome MatchState :=
  match parseKey kv.1 with
  | .malformed => .raised
  | .bundle emb vec => .ok { st with bundles := insertInner st.bundles emb vec kv.2 }
  | .layerKey knp part =>
    match convert knp with
    | none => .ok { st with failed := st.failed + 1 }
    | some sdKey => .ok { st with matched := insertInner st.matched sdKey part kv.2 }

/-- The whole key loop over the raw state dict. -/
def matchKeys (convert : Str → Option Str) :
    List (Str × Tensor) → MatchState → LoadOutcome MatchState
  | [], st => .ok st
  | kv :: rest, st =>
    match matchStep convert st kv with
    | .raised => .raised
    | .ok st' => matchKeys convert rest st'

/-- The module-construction loop (`networks.py:140-151`): dispatch each
matched weight bundle through the variant list; bundles no variant accepts
are logged as unhandled and dropped, the rest become `net.modules[key]`. -/
def buildModules (create : ModuleTypeTag → List (Str × Tensor) → Option ModuleHandle) :
    List (Str × List (Str × Tensor)) → List (Str × (ModuleTypeTag × ModuleHandle))
  | [] => []
  | (k, w) :: rest =>
    match createFirst create w with
    | some tm => (k, tm) :: buildModules create rest
    | none => buildModules create rest

/-- A fully parsed in-memory adapter (`network.Network`) as far as the cache
and loader are concerned. -/
structure Net where
  name : Str
  modules : List (Str × (ModuleTypeTag × ModuleHandle))
  bundle_embeddings : List (Str × List (Str × Tensor))
  deriving DecidableEq

/-- Result of one `load_safetensors` call: the returned adapter (or `None`),
the `lora_cache` afterwards, and the aggregate unmatched-key count the source
reports (`unmatched={len(keys_failed_to_match)}`, `networks.py:153`). -/
structure LoadResult where
  result : Option Net
  cache : List (Str × Net)
  unmatched : Nat
  deriving DecidableEq

/-- Model of `load_safetensors` (`networks.py:94-162`): bail out if no base model is
loaded; return a cache hit untouched (a hit neither re-inserts nor reorders the
entry); otherwise parse and match every raw key, build the module map, and —
only when at least one key matched a base-model layer — insert the adapter
into `lora_cache` and return it; zero matched layers is a load failure that
leaves the cache alone.  The state-dict read, flux/sd3 conversions, mtime
and hash bookkeeping are outside the modelled logic. -/
def load_safetensors (sd_loaded : Bool) (name : Str) (cache : List (Str × Net))
    (sd : List (Str × Tensor)) (convert : Str → Option Str)
    (create : ModuleTypeTag → List (Str × Tensor) → Option ModuleHandle) :
    LoadOutcome LoadResult :=
  if sd_loaded = false then .ok { result := none, cache := cache, unmatched := 0 }
  else
    match lookupA cache name with
    | some cached => .ok { result := some cached, cache := cache, unmatched := 0 }
    | none =>
      match matchKeys convert sd { failed := 0, matched := [], bundles := [] } with
      | .raised => .raised
      | .ok st =>
        let ms := buildModules create st.matched
        let net : Net := { name := name, modules := ms, bundle_embeddings := st.bundles }
        if st.matched.length = 0 then
          .ok { result := none, cache := cache, unmatched := st.failed }
        else
          .ok { result := some net, cache := insertA cache name net, unmatched := st.failed }

/-- A raw key that reaches the layer-key path but fails the base-model lookup
(counted in `keys_failed_to_match`). -/
def unmatchedKeyB (convert : Str → Option Str) (kv : Str × Tensor) : Bool :=
  match parseKey kv.1 with
  | .layerKey knp _ => (convert knp).isNone
  | _ => false

/-- A raw key that resolves to an actual base-model layer. -/
def matchedKeyB (convert : Str → Option Str) (kv : Str × Tensor) : Bool :=
  match parseKey kv.1 with
  | .layerKey knp _ => (convert knp).isSome
  | _ => false

/-- The `network.Network` object `load_safetensors` builds from a match state
(`networks.py:103`, `networks.py:151`, `networks.py:161`). -/
def builtNet (name : Str) (create : ModuleTypeTag → List (Str × Tensor) → Option ModuleHandle)
    (st : MatchState) : Net :=
  { name := name, modules := buildModules create st.matched,
    bundle_embeddings := st.bundles }

/-- The cache bound enforced at the end of `network_load`
(`networks.py:274-276`): `while len(lora_cache) > limit` pop
`next(iter(lora_cache))`, i.e. the earliest-inserted entry. -/
def lora_cache_trim (limit : Nat) : List (Str × Net) → List (Str × Net)
  | [] => []
  | e :: rest =>
    if rest.length + 1 > limit then lora_cache_trim limit rest else e :: rest

-- section: loaded networks and multipliers (`network_load`, `networks.py:229-305`)

/-- What one per-layer module does when `calc_updown(weight)` is called:
either raise a `RuntimeError` or return the pair
`(updown, ex_bias)` with an optional bias delta.  The concrete
reconstruction formulas live in the per-variant modules outside this file's
source; per the spec (§4.3, §4.5) the delta is reconstructed from the
module's stored factors, so it is modelled as a stored outcome independent
of the base weight's value. -/
inductive CalcOutcome where
  | raises
  | returns (updown : Option Tensor) (exBias : Option Tensor)
  deriving DecidableEq

/-- One per-target-layer module of a loaded adapter. -/
structure NetModule where
  outcome : CalcOutcome
  deriving DecidableEq

/-- A loaded adapter as the patch engine sees it (`network.Network`): its
name, the per-activation multipliers set by `network_load`
(`networks.py:269-271`), and its module map. -/
structure LoadedNet where
  name : Str
  te_multiplier : Mult
  unet_multiplier : Mult
  dyn_dim : Option Mult
  modules : List (Str × NetModule)
  deriving DecidableEq

/-- Model of `net.modules.get(network_layer_name, None)`. -/
def getModule (n : LoadedNet) (lname : Str) : Option NetModule :=
  lookupA n.modules lname

/-- The `wanted_names` signature computed once per activation pass
(`networks.py:529`): the ordered `(name, te_multiplier, unet_multiplier,
dyn_dim)` tuples of `loaded_networks` (empty when no network is loaded). -/
def wantedNames (nets : List LoadedNet) : Signature :=
  nets.map fun x => (x.name, x.te_multiplier, x.unet_multiplier, x.dyn_dim)

/-- Model of `te_multipliers[i] if te_multipliers else default` (`networks.py:269-270`):
Python truthiness makes both `None` and `[]` fall back to the default.  (An
in-range index is the source's responsibility; out of range it raises, which
no claim exercises, so `getD` supplies the default there.) -/
def pickMult (xs : Option (List Mult)) (i : Nat) (d : Mult) : Mult :=
  match xs with
  | none => d
  | some [] => d
  | some (y :: ys) => (y :: ys).getD i d

/-- Model of `dyn_dims[i] if dyn_dims else default` (`networks.py:271`): with `dyn_dims`
absent or empty the field is set to the default multiplier value — not to
`None` — and a supplied list may carry `None` entries. -/
def pickDyn (xs : Option (List (Option Mult))) (i : Nat) (d : Mult) : Option Mult :=
  match xs with
  | none => some d
  | some [] => some d
  | some (y :: ys) => (y :: ys).getD i none

/-- The per-adapter multiplier assignment of `network_load`'s loop
(`networks.py:269-272`): the i-th successfully loaded network gets the i-th
requested multipliers, with Python-falsy parameter lists falling back to
`opts.extra_networks_default_multiplier`. -/
def network_load_set_multipliers (opts : Opts) (te unet : Option (List Mult))
    (dyn : Option (List (Option Mult))) (nets : List LoadedNet) : List LoadedNet :=
  nets.enum.map fun p =>
    { p.2 with
        te_multiplier := pickMult te p.1 opts.extra_networks_default_multiplier
        unet_multiplier := pickMult unet p.1 opts.extra_networks_default_multiplier
        dyn_dim := pickDyn dyn p.1 opts.extra_networks_default_multiplier }

-- section: per-layer patch state and backup (`networks.py:310-357`)

/-- The state the engine keeps on one live target layer: the attributes
`network_layer_name`, `weight`, `bias`, `network_weights_backup`,
`network_bias_backup`, `network_current_names` and the `quant_type`
recombination metadata stashed by the 4-bit backup path
(`networks.py:327-329`; `quant_state` and `blocksize` travel with it and are
not separately modelled). -/
structure LayerState where
  network_layer_name : Option Str
  weight : Option WeightParam
  bias : Option Tensor
  network_weights_backup : BackupSlot WeightParam
  network_bias_backup : BackupSlot Tensor
  network_current_names : Signature
  quant_type : Option QuantType
  deriving DecidableEq

/-- Model of `bnb.functional.dequantize_4bit`: recover the plain tensor from a 4-bit
parameter (value-preserving in this exact scalar model). -/
def dequantize_4bit (w : WeightParam) : WeightParam :=
  { value := w.value, quant := none }

/-- Model of the test `getattr(weight, "quant_type", None) in ['nf4', 'fp4']`. -/
def isQuant4 (q : Option QuantType) : Bool :=
  q = some .nf4 || q = some .fp4

/-- The guard of `network_backup_weights` (`networks.py:313`):
`len(loaded_networks) > 0 and network_layer_name is not None and
any(net.modules.get(network_layer_name) for net in loaded_networks)`
(the layer name is already known non-None at the call site). -/
def backupGate (nets : List LoadedNet) (lname : Str) : Bool :=
  decide (nets.length > 0) && nets.any fun n => (getModule n lname).isSome

/-- The weight block of `network_backup_weights` (`networks.py:316-336`):
snapshot the weight into `network_weights_backup` only when no backup exists
yet and the wanted signature is non-empty — as the boolean `True` under
fuse/low-memory, as the dequantized plain tensor for a 4-bit weight when the
`bnb` library is available (also stashing the quantization metadata on the
layer), and as a clone otherwise.  The host-offload `.to(cpu)` move is not
modelled; a `None` weight on the clone path would raise in the source and is
left unchanged here. -/
def backup_weights_stage (opts : Opts) (bnbAvail : Bool) (l : LayerState)
    (weight : Option WeightParam) (wanted : Signature) : LayerState :=
  if l.network_weights_backup = .noneB ∧ wanted ≠ [] then
    if opts.lora_fuse_diffusers || opts.lora_low_memory then
      { l with network_weights_backup := .flag }
    else
      match weight with
      | some w =>
        if isQuant4 w.quant then
          if bnbAvail then
            { l with network_weights_backup := .snap (dequantize_4bit w)
                     quant_type := w.quant }
          else { l with network_weights_backup := .snap w }
        else { l with network_weights_backup := .snap w }
      | none => l
  else l

/-- The bias block of `network_backup_weights` (`networks.py:338-349`):
snapshot the bias into `network_bias_backup` whenever none exists and the
layer has a bias (the boolean `True` under fuse/low-memory, a clone
otherwise); a bias-less layer keeps the `None` backup. -/
def backup_bias_stage (opts : Opts) (l : LayerState) : LayerState :=
  if l.network_bias_backup = .noneB then
    match l.bias with
    | some b =>
      if opts.lora_fuse_diffusers || opts.lora_low_memory then
        { l with network_bias_backup := .flag }
      else { l with network_bias_backup := .snap b }
    | none => l
  else l

/-- Model of `network_backup_weights` (`networks.py:310-357`): under the gate, run the
weight block and then the bias block; otherwise the layer is untouched.  The
byte-size accounting of the return value is not modelled. -/
def network_backup_weights (opts : Opts) (bnbAvail : Bool) (nets : List LoadedNet)
    (l : LayerState) (weight : Option WeightParam) (lname : Str) (wanted : Signature) :
    LayerState :=
  if backupGate nets lname then
    backup_bias_stage opts (backup_weights_stage opts bnbAvail l weight wanted)
  else l

-- section: delta computation (`network_calc_weights`, `networks.py:360-397`)

/-- The env flag `SD_LORA_DEBUG` is unset in the modelled deployment; under debug the
error branch of `network_calc_weights` re-raises after logging. -/
def debugFlag : Bool := false

/-- Accumulator of `network_calc_weights`: the summed weight delta, the
summed bias delta, and the `extra_network_lora.errors` counter dict. -/
structure CalcResult where
  batch_updown : Option Tensor
  batch_ex_bias : Option Tensor
  errors : List (Str × Nat)
  deriving DecidableEq

/-- The accumulator update of `networks.py:372-379`: add when both the
accumulator and the new delta are present, otherwise assign the new delta. -/
def combineAcc (batch x : Option Tensor) : Option Tensor :=
  match batch, x with
  | some b, some u => some (b + u)
  | _, _ => x

/-- Model of `extra_network_lora.errors[net.name] = errors.get(net.name, 0) + 1`
(`networks.py:390`), with dict-update position semantics. -/
def bumpError : List (Str × Nat) → Str → List (Str × Nat)
  | [], name => [(name, 1)]
  | (k, v) :: rest, name =>
    if k = name then (k, v + 1) :: rest else (k, v) :: bumpError rest name

/-- One iteration of the `network_calc_weights` loop (`networks.py:365-396`):
skip networks owning no module at this layer (and layers without a weight
attribute); on success fold both deltas into the accumulators; on a
`RuntimeError` from `calc_updown` increment the adapter's error counter,
leave the accumulators untouched, and continue (the debug-only re-raise is
off).  The host-offload moves of the accumulators are not modelled. -/
def calcStep (lname : Str) (weight : Option WeightParam) (acc : CalcResult)
    (net : LoadedNet) : CalcResult :=
  match getModule net lname, weight with
  | some m, some _ =>
    match m.outcome with
    | .raises => { acc with errors := bumpError acc.errors net.name }
    | .returns updown exBias =>
      { acc with
          batch_updown := combineAcc acc.batch_updown updown
          batch_ex_bias := combineAcc acc.batch_ex_bias exBias }
  | _, _ => acc

/-- Fold of `calcStep` over a list of networks from a given accumulator. -/
def calcFold (lname : Str) (weight : Option WeightParam) (nets : List LoadedNet)
    (acc : CalcResult) : CalcResult :=
  nets.foldl (calcStep lname weight) acc

/-- Model of `network_calc_weights` (`networks.py:360-397`) over `loaded_networks`,
starting from empty accumulators and the current error dict. -/
def network_calc_weights (lname : Str) (weight : Option WeightParam)
    (nets : List LoadedNet) (errors0 : List (Str × Nat)) : CalcResult :=
  calcFold lname weight nets { batch_updown := none, batch_ex_bias := none, errors := errors0 }

-- section: applying deltas (`network_apply_weights`, `networks.py:400-446`)

/-- The weight half of `network_apply_weights` (`networks.py:407-426`).
A boolean backup reads the live weight as the base; a snapshot backup is the
base itself.  With a delta present it is negated under `deactivate`, added to
the base, and the result is re-quantized through `Params4bit` when the layer
carries 4-bit metadata and `bnb` is loaded, else wrapped as a plain
parameter; with no delta the backup itself becomes the live parameter.
The inpainting zero-padding (`networks.py:412-413`) pads the delta with
zeros and has no scalar analogue; a `None` live weight under a boolean
backup would raise in the source and is left unchanged here. -/
def applyWeightPart (bnbAvail : Bool) (l : LayerState) (updown : Option Tensor)
    (deactivate : Bool) : LayerState :=
  match l.network_weights_backup with
  | .noneB => l
  | slot =>
    let wb : Option WeightParam :=
      match slot with
      | .flag => l.weight
      | .snap t => some t
      | .noneB => none
    match updown, wb with
    | some u, some w0 =>
      let d := if deactivate then -u else u
      let newWeight := w0.value + d
      if isQuant4 l.quant_type && bnbAvail then
        { l with weight := some { value := newWeight, quant := l.quant_type } }
      else
        { l with weight := some { value := newWeight, quant := none } }
    | some _, none => l
    | none, _ => { l with weight := wb }

/-- The bias half of `network_apply_weights` (`networks.py:428-442`): with no
bias backup the live bias is cleared; otherwise the delta (negated under
`deactivate`) is added onto the backed-up base, or the base is restored
as-is when no bias delta accumulated. -/
def applyBiasPart (l : LayerState) (exBias : Option Tensor) (deactivate : Bool) :
    LayerState :=
  match l.network_bias_backup with
  | .noneB => { l with bias := none }
  | slot =>
    let bb : Option Tensor :=
      match slot with
      | .flag => l.bias
      | .snap t => some t
      | .noneB => none
    match exBias, bb with
    | some e, some b0 =>
      let d := if deactivate then -e else e
      { l with bias := some (b0 + d) }
    | some _, none => l
    | none, _ => { l with bias := bb }

/-- Model of `network_apply_weights` (`networks.py:400-446`): return unchanged (with a
`False` "nothing applied" marker standing for the `None, None` return) when
neither a weight nor a bias backup exists; otherwise rewrite the weight and
then the bias, each once, after its full delta has been summed. -/
def network_apply_weights (bnbAvail : Bool) (l : LayerState)
    (updown exBias : Option Tensor) (deactivate : Bool) : LayerState × Bool :=
  if l.network_weights_backup = .noneB ∧ l.network_bias_backup = .noneB then (l, false)
  else
    let l1 := applyWeightPart bnbAvail l updown deactivate
    (applyBiasPart l1 exBias deactivate, true)

-- section: the activation and deactivation passes (`networks.py:449-561`)

/-- Mutation counters for one pass: how many layers had the backup step run,
the delta computation run, and the apply step run. -/
structure PassStats where
  backups : Nat
  calcs : Nat
  applies : Nat
  deriving DecidableEq

/-- The per-layer loop of `network_activate` (`networks.py:534-555`),
threading the error dict: a layer is skipped — wholly untouched — when the
pass is interrupted, when it has no `network_layer_name`, or when its
`network_current_names` already equals `wanted_names`; otherwise its
parameters are backed up, the summed deltas are computed and applied, and
its signature is set to `wanted_names`. -/
def activateLayers (opts : Opts) (bnbAvail interrupted : Bool) (nets : List LoadedNet)
    (wanted : Signature) :
    List LayerState → List (Str × Nat) → List LayerState × List (Str × Nat) × PassStats
  | [], errors => ([], errors, ⟨0, 0, 0⟩)
  | l :: rest, errors =>
    match l.network_layer_name with
    | none =>
      let r := activateLayers opts bnbAvail interrupted nets wanted rest errors
      (l :: r.1, r.2)
    | some lname =>
      if interrupted || decide (l.network_current_names = wanted) then
        let r := activateLayers opts bnbAvail interrupted nets wanted rest errors
        (l :: r.1, r.2)
      else
        let weight := l.weight
        let l1 := network_backup_weights opts bnbAvail nets l weight lname wanted
        let c := network_calc_weights lname weight nets errors
        let l2 := (network_apply_weights bnbAvail l1 c.batch_updown c.batch_ex_bias false).1
        let l3 : LayerState := { l2 with network_current_names := wanted }
        let r := activateLayers opts bnbAvail interrupted nets wanted rest c.errors
        (l3 :: r.1, r.2.1, ⟨r.2.2.backups + 1, r.2.2.calcs + 1, r.2.2.applies + 1⟩)

/-- Model of `network_activate` (`networks.py:507-561`): compute `wanted_names` once
from the ordered loaded networks and run the per-layer loop over every
module of every component.  Timer resets, progress reporting and offload
handling are not modelled. -/
def network_activate (opts : Opts) (bnbAvail interrupted : Bool) (nets : List LoadedNet)
    (layers : List LayerState) (errors : List (Str × Nat)) :
    List LayerState × List (Str × Nat) × PassStats :=
  activateLayers opts bnbAvail interrupted nets (wantedNames nets) layers errors

/-- The per-layer loop of `network_deactivate` (`networks.py:476-496`): every
layer with a `network_layer_name` (unless interrupted) gets the same summed
delta recomputed and applied with `deactivate=True` — subtracting it — and
its signature reset to empty. -/
def deactivateLayers (opts : Opts) (bnbAvail interrupted : Bool) (nets : List LoadedNet) :
    List LayerState → List (Str × Nat) → List LayerState × List (Str × Nat)
  | [], errors => ([], errors)
  | l :: rest, errors =>
    match l.network_layer_name with
    | none =>
      let r := deactivateLayers opts bnbAvail interrupted nets rest errors
      (l :: r.1, r.2)
    | some lname =>
      if interrupted then
        let r := deactivateLayers opts bnbAvail interrupted nets rest errors
        (l :: r.1, r.2)
      else
        let weight := l.weight
        let c := network_calc_weights lname weight nets errors
        let l2 := (network_apply_weights bnbAvail l c.batch_updown c.batch_ex_bias true).1
        let l3 : LayerState := { l2 with network_current_names := [] }
        let r := deactivateLayers opts bnbAvail interrupted nets rest c.errors
        (l3 :: r.1, r.2)

/-- The cumulative timing dict (`networks.py:31`); wall-clock durations are
supplied from outside the model. -/
structure Timer where
  listT : Nat
  loadT : Nat
  backupT : Nat
  calcT : Nat
  applyT : Nat
  moveT : Nat
  restoreT : Nat
  deactivateT : Nat
  deriving DecidableEq

/-- The mutable state `network_deactivate` can touch: the model's layers, the
per-adapter error counters, and the timers. -/
structure EngineState where
  layers : List LayerState
  errors : List (Str × Nat)
  timer : Timer
  deriving DecidableEq

/-- Model of `network_deactivate` (`networks.py:449-505`): unless
`shared.opts.lora_low_memory` is enabled it returns immediately, touching
nothing — no parameter, signature, backup, error counter or timer; otherwise
it zeroes and re-accumulates `timer['deactivate']` (the measured duration is
the `elapsed` input) and runs the per-layer deactivation loop. -/
def network_deactivate (opts : Opts) (bnbAvail interrupted : Bool)
    (nets : List LoadedNet) (elapsed : Nat) (st : EngineState) : EngineState :=
  if opts.lora_low_memory = false then st
  else
    let r := deactivateLayers opts bnbAvail interrupted nets st.layers st.errors
    { layers := r.1, errors := r.2, timer := { st.timer with deactivateT := elapsed } }

/-- Model of `network_activate` lifted to the engine state (timers aside, which the
activation pass resets and accumulates but no claim concerns). -/
def network_activate_state (opts : Opts) (bnbAvail interrupted : Bool)
    (nets : List LoadedNet) (st : EngineState) : EngineState × PassStats :=
  let r := network_activate opts bnbAvail interrupted nets st.layers st.errors
  ({ st with layers := r.1, errors := r.2.1 }, r.2.2)

/-- The observable a round trip must restore: the layer's live weight value
and bias value. -/
def layerObservable (l : LayerState) : Option Tensor × Option Tensor :=
  (l.weight.map WeightParam.value, l.bias)

/-- The action of one uninterrupted `network_activate` iteration on a single
layer (`networks.py:536-553`), with the error dict abstracted away: the delta
accumulators a layer receives do not depend on the error dict threaded
through the pass, so the pass acts on the layer list as a map of this
function (proved below). -/
def activateOne (opts : Opts) (bnbAvail : Bool) (nets : List LoadedNet)
    (wanted : Signature) (l : LayerState) : LayerState :=
  match l.network_layer_name with
  | none => l
  | some lname =>
    if l.network_current_names = wanted then l
    else
      let l1 := network_backup_weights opts bnbAvail nets l l.weight lname wanted
      let c := network_calc_weights lname l.weight nets []
      let l2 := (network_apply_weights bnbAvail l1 c.batch_updown c.batch_ex_bias false).1
      { l2 with network_current_names := wanted }

/-- The action of one uninterrupted `network_deactivate` iteration on a
single layer (`networks.py:478-493`), with the error dict abstracted away. -/
def deactivateOne (opts : Opts) (bnbAvail : Bool) (nets : List LoadedNet)
    (l : LayerState) : LayerState :=
  match l.network_layer_name with
  | none => l
  | some lname =>
    let c := network_calc_weights lname l.weight nets []
    let l2 := (network_apply_weights bnbAvail l c.batch_updown c.batch_ex_bias true).1
    { l2 with network_current_names := [] }

-- section: helper lemmas about the dictionary model

lemma lookupA_insertA_self {α : Type} (l : List (Str × α)) (k : Str) (v : α) :
    lookupA (insertA l k v) k = some v := by
  induction l with
  | nil => simp [insertA, lookupA]
  | cons e rest ih =>
    obtain ⟨k', v'⟩ := e
    by_cases h : k' = k
    · simp [insertA, lookupA, h]
    · simp [insertA, lookupA, h, ih]

lemma lookupA_insertA_ne {α : Type} (l : List (Str × α)) (k k' : Str) (v : α)
    (h : k' ≠ k) : lookupA (insertA l k v) k' = lookupA l k' := by
  have hsym : ¬k = k' := fun hh => h (Eq.symm hh)
  induction l with
  | nil => simp [insertA, lookupA, hsym]
  | cons e rest ih =>
    obtain ⟨k0, v0⟩ := e
    by_cases h0 : k0 = k
    · subst h0
      simp [insertA, lookupA, hsym]
    · by_cases h1 : k0 = k'
      · subst h1
        simp [insertA, lookupA, h0]
      · simp [insertA, lookupA, h0, h1, ih]

lemma insertA_ne_nil {α : Type} (l : List (Str × α)) (k : Str) (v : α) :
    insertA l k v ≠ [] := by
  cases l with
  | nil => simp [insertA]
  | cons e rest =>
    obtain ⟨k0, v0⟩ := e
    by_cases h : k0 = k <;> simp [insertA, h]

lemma map_congr_mem {α β : Type} {f g : α → β} :
    ∀ {l : List α}, (∀ a ∈ l, f a = g a) → l.map f = l.map g
  | [], _ => rfl
  | a :: l, h => by
    simp only [List.map_cons, h a (by simp)]
    exact congrArg _ (map_congr_mem fun x hx => h x (by simp [hx]))

-- section: claim C3

/-- C3: when the low-memory configuration option (`lora_low_memory`) is
disabled, `network_deactivate` returns immediately without mutating any model
parameter, any layer's signature or backup, or any timer: deactivation of
applied adapters only ever happens when `lora_low_memory` is enabled
(`networks.py:450-451`). -/
theorem C3_deactivate_requires_low_memory (opts : Opts) (bnbAvail interrupted : Bool)
    (nets : List LoadedNet) (elapsed : Nat) (st : EngineState)
    (hlow : opts.lora_low_memory = false) :
    network_deactivate opts bnbAvail interrupted nets elapsed st = st := by
  simp [network_deactivate, hlow]

/-- Witness for C3 at a concrete state. -/
theorem C3_deactivate_requires_low_memory_witness :
    network_deactivate
        { lora_fuse_diffusers := false, lora_low_memory := false,
          lora_offload_backup := false, lora_in_memory_limit := 1,
          lora_preferred_name := str ("filename"),
          extra_networks_default_multiplier := 1 }
        false false [] 7
        { layers := [], errors := [], timer := ⟨0, 0, 0, 0, 0, 0, 0, 0⟩ }
      = { layers := [], errors := [], timer := ⟨0, 0, 0, 0, 0, 0, 0, 0⟩ } :=
  C3_deactivate_requires_low_memory _ false false [] 7 _ rfl

-- section: claim C5

/-- C5: the adapter cache is a FIFO-bounded mapping: whenever its size
exceeds `lora_in_memory_limit`, the earliest-inserted entries are evicted
first (`lora_cache_trim` drops exactly the oldest entries, i.e. the
over-capacity prefix), and a cache hit in `load_safetensors` returns the
cache unchanged, so an entry's age and insertion order are not reset by
access (eviction is not access-recency based). -/
theorem C5_cache_fifo (limit : Nat) (c : List (Str × Net)) (name : Str) (net : Net)
    (cache : List (Str × Net)) (sd : List (Str × Tensor)) (convert : Str → Option Str)
    (create : ModuleTypeTag → List (Str × Tensor) → Option ModuleHandle)
    (hhit : lookupA cache name = some net) :
    lora_cache_trim limit c = c.drop (c.length - limit)
    ∧ load_safetensors true name cache sd convert create
        = .ok { result := some net, cache := cache, unmatched := 0 } := by
  constructor
  · induction c with
    | nil => simp [lora_cache_trim]
    | cons e rest ih =>
      by_cases h : rest.length + 1 > limit
      · have hlen : rest.length + 1 - limit = (rest.length - limit) + 1 := by omega
        simp only [lora_cache_trim, if_pos h, ih, List.length_cons, hlen,
          List.drop_succ_cons]
      · have hlen : rest.length + 1 - limit = 0 := by omega
        simp only [lora_cache_trim, if_neg h, List.length_cons, hlen, List.drop_zero]
  · simp [load_safetensors, hhit]

/-- Witness for C5: a three-entry cache with capacity one evicts the two
oldest entries, and a hit on a present entry leaves the cache as is. -/
theorem C5_cache_fifo_witness :
    lora_cache_trim 1
        [(str ("a"), ⟨str ("a"), [], []⟩), (str ("b"), ⟨str ("b"), [], []⟩),
         (str ("c"), ⟨str ("c"), [], []⟩)]
      = List.drop
          ([(str ("a"), (⟨str ("a"), [], []⟩ : Net)), (str ("b"), ⟨str ("b"), [], []⟩),
            (str ("c"), ⟨str ("c"), [], []⟩)].length - 1)
          [(str ("a"), ⟨str ("a"), [], []⟩), (str ("b"), ⟨str ("b"), [], []⟩),
           (str ("c"), ⟨str ("c"), [], []⟩)]
    ∧ load_safetensors true (str ("b"))
          [(str ("a"), ⟨str ("a"), [], []⟩), (str ("b"), ⟨str ("b"), [], []⟩),
           (str ("c"), ⟨str ("c"), [], []⟩)]
          [] (fun _ => none) (fun _ _ => none)
        = .ok { result := some ⟨str ("b"), [], []⟩,
                cache := [(str ("a"), ⟨str ("a"), [], []⟩), (str ("b"), ⟨str ("b"), [], []⟩),
                          (str ("c"), ⟨str ("c"), [], []⟩)],
                unmatched := 0 } :=
  C5_cache_fifo 1 _ (str ("b")) _ _ [] (fun _ => none) (fun _ _ => none) (by decide)

-- section: claim C8

lemma dispatchList_append_rejected
    (create : ModuleTypeTag → List (Str × Tensor) → Option ModuleHandle)
    (w : List (Str × Tensor)) (pre rest : List ModuleTypeTag)
    (hpre : ∀ t ∈ pre, create t w = none) :
    dispatchList create w (pre ++ rest) = dispatchList create w rest := by
  induction pre with
  | nil => rfl
  | cons t ts ih =>
    have ht : create t w = none := hpre t (by simp)
    simp only [List.cons_append, dispatchList, ht]
    exact ih fun x hx => hpre x (by simp [hx])

/-- C8: module-type dispatch tries the variants in the fixed priority order
Lora, Hada, Ia3, OFT, Lokr, Full, Norm, GLora (`module_types`,
`networks.py:39-48`), and for every weight bundle the first variant whose
`create_module` accepts it wins: the dispatch result is determined by the
rejecting earlier variants and the first accepting one, and does not depend
on what any later variant would answer (no later variant is consulted).
Constructors are pure functions in this model, hence side-effect-free on
rejection. -/
theorem C8_dispatch_first_match
    (create : ModuleTypeTag → List (Str × Tensor) → Option ModuleHandle)
    (w : List (Str × Tensor)) (pre post : List ModuleTypeTag)
    (t0 : ModuleTypeTag) (m : ModuleHandle)
    (horder : module_types = pre ++ t0 :: post)
    (hpre : ∀ t ∈ pre, create t w = none)
    (hacc : create t0 w = some m) :
    createFirst create w = some (t0, m)
    ∧ (∀ post2, dispatchList create w (pre ++ t0 :: post2) = some (t0, m))
    ∧ module_types = [.lora, .hada, .ia3, .oft, .lokr, .full, .norm, .glora] := by
  have hrun : ∀ post2, dispatchList create w (pre ++ t0 :: post2) = some (t0, m) := by
    intro post2
    rw [dispatchList_append_rejected create w pre _ hpre]
    simp [dispatchList, hacc]
  exact ⟨by rw [createFirst, horder]; exact hrun post, hrun, rfl⟩

/-- Witness for C8: a bundle rejected by Lora and Hada and accepted by Ia3
dispatches to Ia3, regardless of the later variants. -/
theorem C8_dispatch_first_match_witness :
    createFirst (fun t _ => if t = .ia3 then some 7 else none) [] = some (.ia3, 7)
    ∧ (∀ post2, dispatchList (fun t _ => if t = .ia3 then some 7 else none) []
          ([.lora, .hada] ++ .ia3 :: post2) = some (.ia3, 7))
    ∧ module_types = [.lora, .hada, .ia3, .oft, .lokr, .full, .norm, .glora] :=
  C8_dispatch_first_match (fun t _ => if t = .ia3 then some 7 else none) []
    [.lora, .hada] [.oft, .lokr, .full, .norm, .glora] .ia3 7
    rfl (by decide) (by decide)

-- section: claim C7

lemma matchKeys_ok (convert : Str → Option Str) :
    ∀ (sd : List (Str × Tensor)) (st0 : MatchState),
      (∀ kv ∈ sd, parseKey kv.1 ≠ .malformed) →
      ∃ st, matchKeys convert sd st0 = .ok st
  | [], st0, _ => ⟨st0, rfl⟩
  | kv :: rest, st0, hwf => by
    have hrest : ∀ kv' ∈ rest, parseKey kv'.1 ≠ .malformed :=
      fun kv' h => hwf kv' (by simp [h])
    rcases hk : parseKey kv.1 with ⟨emb, vec⟩ | ⟨knp, part⟩ | _
    · rcases matchKeys_ok convert rest
        { st0 with bundles := insertInner st0.bundles emb vec kv.2 } hrest with ⟨st, hst⟩
      exact ⟨st, by simp [matchKeys, matchStep, hk, hst]⟩
    · rcases hc : convert knp with _ | sdKey
      · rcases matchKeys_ok convert rest { st0 with failed := st0.failed + 1 } hrest with ⟨st, hst⟩
        exact ⟨st, by simp [matchKeys, matchStep, hk, hc, hst]⟩
      · rcases matchKeys_ok convert rest
          { st0 with matched := insertInner st0.matched sdKey part kv.2 } hrest with ⟨st, hst⟩
        exact ⟨st, by simp [matchKeys, matchStep, hk, hc, hst]⟩
    · exact absurd hk (hwf kv (by simp))

lemma matchKeys_failed_count (convert : Str → Option Str) :
    ∀ (sd : List (Str × Tensor)) (st0 st : MatchState),
      matchKeys convert sd st0 = .ok st →
      st.failed = st0.failed + sd.countP (unmatchedKeyB convert)
  | [], st0, st, h => by
    simp only [matchKeys] at h
    cases h
    simp
  | kv :: rest, st0, st, h => by
    rcases hk : parseKey kv.1 with ⟨emb, vec⟩ | ⟨knp, part⟩ | _
    · simp only [matchKeys, matchStep, hk] at h
      have := matchKeys_failed_count convert rest _ st h
      simp only [this, List.countP_cons, unmatchedKeyB, hk]
      simp
    · rcases hc : convert knp with _ | sdKey
      · simp only [matchKeys, matchStep, hk, hc] at h
        have := matchKeys_failed_count convert rest _ st h
        simp only [this, List.countP_cons, unmatchedKeyB, hk, hc]
        simp
        omega
      · simp only [matchKeys, matchStep, hk, hc] at h
        have := matchKeys_failed_count convert rest _ st h
        simp only [this, List.countP_cons, unmatchedKeyB, hk, hc]
        simp
    · simp [matchKeys, matchStep, hk] at h

lemma insertInner_ne_nil (m : List (Str × List (Str × Tensor))) (k i : Str) (v : Tensor) :
    insertInner m k i v ≠ [] := by
  cases h : lookupA m k <;> simp [insertInner, h, insertA_ne_nil]

lemma matchKeys_matched_nonnil (convert : Str → Option Str) :
    ∀ (sd : List (Str × Tensor)) (st0 st : MatchState),
      matchKeys convert sd st0 = .ok st → st0.matched ≠ [] → st.matched ≠ []
  | [], st0, st, h => by
    simp only [matchKeys] at h
    cases h
    exact id
  | kv :: rest, st0, st, h => by
    intro h0
    rcases hk : parseKey kv.1 with ⟨emb, vec⟩ | ⟨knp, part⟩ | _
    · simp only [matchKeys, matchStep, hk] at h
      exact matchKeys_matched_nonnil convert rest _ st h h0
    · rcases hc : convert knp with _ | sdKey
      · simp only [matchKeys, matchStep, hk, hc] at h
        exact matchKeys_matched_nonnil convert rest _ st h h0
      · simp only [matchKeys, matchStep, hk, hc] at h
        exact matchKeys_matched_nonnil convert rest _ st h (insertInner_ne_nil _ _ _ _)
    · simp [matchKeys, matchStep, hk] at h

lemma matchKeys_matched_nil_iff (convert : Str → Option Str) :
    ∀ (sd : List (Str × Tensor)) (st0 st : MatchState),
      matchKeys convert sd st0 = .ok st →
      (st.matched = [] ↔ st0.matched = [] ∧ sd.countP (matchedKeyB convert) = 0)
  | [], st0, st, h => by
    simp only [matchKeys] at h
    cases h
    simp
  | kv :: rest, st0, st, h => by
    rcases hk : parseKey kv.1 with ⟨emb, vec⟩ | ⟨knp, part⟩ | _
    · simp only [matchKeys, matchStep, hk] at h
      have := matchKeys_matched_nil_iff convert rest _ st h
      simp only [this, List.countP_cons, matchedKeyB, hk]
      simp
    · rcases hc : convert knp with _ | sdKey
      · simp only [matchKeys, matchStep, hk, hc] at h
        have := matchKeys_matched_nil_iff convert rest _ st h
        simp only [this, List.countP_cons, matchedKeyB, hk, hc]
        simp
      · simp only [matchKeys, matchStep, hk, hc] at h
        have hnn : st.matched ≠ [] :=
          matchKeys_matched_nonnil convert rest _ st h (insertInner_ne_nil _ _ _ _)
        simp only [List.countP_cons, matchedKeyB, hk, hc]
        simp [hnn]
    · simp [matchKeys, matchStep, hk] at h

/-- C7: loading an adapter whose keys match zero layers of the base model is
a load failure: `load_safetensors` returns `None` and does not insert the
adapter into the cache (`networks.py:158-159`); conversely an adapter with at
least one matched layer loads successfully and is cached
(`networks.py:160-162`); and unmatched keys are reported only as an
aggregate count — `st.failed` equals the number of raw keys that failed to
resolve to a base-model layer.  The matched map is empty exactly when no raw
key resolved to a layer. -/
theorem C7_zero_match_load_failure (name : Str) (cache : List (Str × Net))
    (sd : List (Str × Tensor)) (convert : Str → Option Str)
    (create : ModuleTypeTag → List (Str × Tensor) → Option ModuleHandle)
    (hmiss : lookupA cache name = none)
    (hwf : ∀ kv ∈ sd, parseKey kv.1 ≠ .malformed) :
    ∃ st, matchKeys convert sd { failed := 0, matched := [], bundles := [] } = .ok st
      ∧ (st.matched = [] ↔ sd.countP (matchedKeyB convert) = 0)
      ∧ st.failed = sd.countP (unmatchedKeyB convert)
      ∧ (st.matched = [] →
          load_safetensors true name cache sd convert create
            = .ok { result := none, cache := cache, unmatched := st.failed })
      ∧ (st.matched ≠ [] →
          load_safetensors true name cache sd convert create
            = .ok { result := some (builtNet name create st),
                    cache := insertA cache name (builtNet name create st),
                    unmatched := st.failed }) := by
  obtain ⟨st, hst⟩ := matchKeys_ok convert sd { failed := 0, matched := [], bundles := [] } hwf
  refine ⟨st, hst, ?_, ?_, ?_, ?_⟩
  · have := matchKeys_matched_nil_iff convert sd _ st hst
    simpa using this
  · have := matchKeys_failed_count convert sd _ st hst
    simpa using this
  · intro hm
    simp [load_safetensors, hmiss, hst, hm]
  · intro hm
    have hlen : ¬st.matched.length = 0 := by
      simpa [List.length_eq_zero] using hm
    simp [load_safetensors, hmiss, hst, hlen, builtNet]

/-- Witness for C7: one matched key, one unmatched key. -/
theorem C7_zero_match_load_failure_witness :
    ∃ st, matchKeys (fun k => if k = str ("lora_te") then some (str ("te1")) else none)
        [(str ("lora_te.lora_down.weight"), 3), (str ("foo.bar"), 4)]
        { failed := 0, matched := [], bundles := [] } = .ok st
      ∧ (st.matched = [] ↔
          List.countP (matchedKeyB (fun k => if k = str ("lora_te") then some (str ("te1")) else none))
            [(str ("lora_te.lora_down.weight"), 3), (str ("foo.bar"), 4)] = 0)
      ∧ st.failed = List.countP
          (unmatchedKeyB (fun k => if k = str ("lora_te") then some (str ("te1")) else none))
          [(str ("lora_te.lora_down.weight"), 3), (str ("foo.bar"), 4)]
      ∧ (st.matched = [] →
          load_safetensors true (str ("lora1")) []
              [(str ("lora_te.lora_down.weight"), 3), (str ("foo.bar"), 4)]
              (fun k => if k = str ("lora_te") then some (str ("te1")) else none)
              (fun t _ => if t = .lora then some 1 else none)
            = .ok { result := none, cache := [], unmatched := st.failed })
      ∧ (st.matched ≠ [] →
          load_safetensors true (str ("lora1")) []
              [(str ("lora_te.lora_down.weight"), 3), (str ("foo.bar"), 4)]
              (fun k => if k = str ("lora_te") then some (str ("te1")) else none)
              (fun t _ => if t = .lora then some 1 else none)
            = .ok { result := some (builtNet (str ("lora1"))
                      (fun t _ => if t = .lora then some 1 else none) st),
                    cache := insertA [] (str ("lora1")) (builtNet (str ("lora1"))
                      (fun t _ => if t = .lora then some 1 else none) st),
                    unmatched := st.failed }) :=
  C7_zero_match_load_failure (str ("lora1")) [] _ _ _ rfl (by decide)

-- section: claim C9

lemma isQuant4_some (qt : QuantType) : isQuant4 (some qt) = true := by
  cases qt <;> rfl

lemma backup_bias_stage_keeps_weights (opts : Opts) (l : LayerState) :
    (backup_bias_stage opts l).network_weights_backup = l.network_weights_backup
    ∧ (backup_bias_stage opts l).quant_type = l.quant_type := by
  unfold backup_bias_stage
  split
  · split
    · split <;> exact ⟨rfl, rfl⟩
    · exact ⟨rfl, rfl⟩
  · exact ⟨rfl, rfl⟩

lemma backup_weights_stage_keeps_bias (opts : Opts) (bnbAvail : Bool) (l : LayerState)
    (weight : Option WeightParam) (wanted : Signature) :
    (backup_weights_stage opts bnbAvail l weight wanted).network_bias_backup
      = l.network_bias_backup
    ∧ (backup_weights_stage opts bnbAvail l weight wanted).bias = l.bias := by
  unfold backup_weights_stage
  split
  · split
    · exact ⟨rfl, rfl⟩
    · split
      · split
        · split <;> exact ⟨rfl, rfl⟩
        · exact ⟨rfl, rfl⟩
      · exact ⟨rfl, rfl⟩
  · exact ⟨rfl, rfl⟩

/-- C9: a layer's original weight and bias are snapshotted into its backup
state only when no backup exists yet (first-ever patch) and — for the weight
— the wanted signature is non-empty; a layer that already carries a weight or
bias backup keeps it unchanged on re-patch (`networks.py:317`,
`networks.py:339`); and for a 4-bit quantized weight (nf4/fp4) with the
`bnb` library available (and fuse/low-memory off, so a real copy is taken)
the snapshot stored is the dequantized plain tensor — quantization tag
cleared — not the quantized parameter, with the quantization metadata
stashed on the layer for later re-quantization (`networks.py:321-329`). -/
theorem C9_backup_first_patch_and_dequantized (opts : Opts) (bnbAvail : Bool)
    (nets : List LoadedNet) (lname : Str) (wanted : Signature) (w : WeightParam)
    (l : LayerState) (qt : QuantType)
    (hgate : backupGate nets lname = true)
    (hwanted : wanted ≠ [])
    (hfresh : l.network_weights_backup = .noneB)
    (hfuse : opts.lora_fuse_diffusers = false)
    (hlow : opts.lora_low_memory = false)
    (hq : w.quant = some qt) :
    (network_backup_weights opts true nets l (some w) lname wanted).network_weights_backup
        = .snap (dequantize_4bit w)
    ∧ (network_backup_weights opts true nets l (some w) lname wanted).quant_type = some qt
    ∧ (∀ (l2 : LayerState) (w2 : Option WeightParam),
        l2.network_weights_backup ≠ .noneB →
        (network_backup_weights opts bnbAvail nets l2 w2 lname wanted).network_weights_backup
          = l2.network_weights_backup)
    ∧ (∀ (l3 : LayerState) (w3 : Option WeightParam),
        l3.network_bias_backup ≠ .noneB →
        (network_backup_weights opts bnbAvail nets l3 w3 lname wanted).network_bias_backup
          = l3.network_bias_backup) := by
  have hstage : backup_weights_stage opts true l (some w) wanted
      = { l with network_weights_backup := .snap (dequantize_4bit w), quant_type := some qt } := by
    unfold backup_weights_stage
    rw [if_pos ⟨hfresh, hwanted⟩, hfuse, hlow]
    simp [hq, isQuant4_some]
  refine ⟨?_, ?_, ?_, ?_⟩
  · rw [network_backup_weights, if_pos hgate, (backup_bias_stage_keeps_weights _ _).1, hstage]
  · rw [network_backup_weights, if_pos hgate, (backup_bias_stage_keeps_weights _ _).2, hstage]
  · intro l2 w2 hx
    by_cases hg : backupGate nets lname = true
    · rw [network_backup_weights, if_pos hg, (backup_bias_stage_keeps_weights _ _).1]
      unfold backup_weights_stage
      rw [if_neg (fun hh => hx hh.1)]
    · rw [network_backup_weights, if_neg hg]
  · intro l3 w3 hx
    by_cases hg : backupGate nets lname = true
    · rw [network_backup_weights, if_pos hg]
      have hb := (backup_weights_stage_keeps_bias opts bnbAvail l3 w3 wanted).1
      unfold backup_bias_stage
      rw [if_neg (by rw [hb]; exact hx), hb]
    · rw [network_backup_weights, if_neg hg]

/-- Witness for C9: a fresh nf4-quantized layer owned by one adapter. -/
theorem C9_backup_first_patch_and_dequantized_witness :
    (network_backup_weights
        { lora_fuse_diffusers := false, lora_low_memory := false,
          lora_offload_backup := false, lora_in_memory_limit := 1,
          lora_preferred_name := str ("alias"), extra_networks_default_multiplier := 1 }
        true [⟨str ("a"), 1, 1, none, [(str ("l1"), ⟨.returns (some 3) none⟩)]⟩]
        { network_layer_name := some (str ("l1")), weight := some ⟨10, some .nf4⟩,
          bias := none, network_weights_backup := .noneB, network_bias_backup := .noneB,
          network_current_names := [], quant_type := none }
        (some ⟨10, some .nf4⟩) (str ("l1"))
        [(str ("a"), 1, 1, none)]).network_weights_backup
      = .snap (dequantize_4bit ⟨10, some .nf4⟩)
    ∧ (network_backup_weights
        { lora_fuse_diffusers := false, lora_low_memory := false,
          lora_offload_backup := false, lora_in_memory_limit := 1,
          lora_preferred_name := str ("alias"), extra_networks_default_multiplier := 1 }
        true [⟨str ("a"), 1, 1, none, [(str ("l1"), ⟨.returns (some 3) none⟩)]⟩]
        { network_layer_name := some (str ("l1")), weight := some ⟨10, some .nf4⟩,
          bias := none, network_weights_backup := .noneB, network_bias_backup := .noneB,
          network_current_names := [], quant_type := none }
        (some ⟨10, some .nf4⟩) (str ("l1"))
        [(str ("a"), 1, 1, none)]).quant_type = some .nf4
    ∧ (∀ (l2 : LayerState) (w2 : Option WeightParam),
        l2.network_weights_backup ≠ .noneB →
        (network_backup_weights
          { lora_fuse_diffusers := false, lora_low_memory := false,
            lora_offload_backup := false, lora_in_memory_limit := 1,
            lora_preferred_name := str ("alias"), extra_networks_default_multiplier := 1 }
          false [⟨str ("a"), 1, 1, none, [(str ("l1"), ⟨.returns (some 3) none⟩)]⟩]
          l2 w2 (str ("l1")) [(str ("a"), 1, 1, none)]).network_weights_backup
          = l2.network_weights_backup)
    ∧ (∀ (l3 : LayerState) (w3 : Option WeightParam),
        l3.network_bias_backup ≠ .noneB →
        (network_backup_weights
          { lora_fuse_diffusers := false, lora_low_memory := false,
            lora_offload_backup := false, lora_in_memory_limit := 1,
            lora_preferred_name := str ("alias"), extra_networks_default_multiplier := 1 }
          false [⟨str ("a"), 1, 1, none, [(str ("l1"), ⟨.returns (some 3) none⟩)]⟩]
          l3 w3 (str ("l1")) [(str ("a"), 1, 1, none)]).network_bias_backup
          = l3.network_bias_backup) :=
  C9_backup_first_patch_and_dequantized _ false
    [⟨str ("a"), 1, 1, none, [(str ("l1"), ⟨.returns (some 3) none⟩)]⟩]
    (str ("l1")) [(str ("a"), 1, 1, none)] ⟨10, some .nf4⟩ _ .nf4
    (by decide) (by decide) rfl rfl rfl rfl

-- section: claim C10

/-- C10: when `network_load` is called without per-adapter rank-truncation
parameters (`dyn_dims` absent or empty, both Python-falsy), every loaded
network's `dyn_dim` field is set to the configured
`extra_networks_default_multiplier` — not to a null meaning "no
truncation" — and that value becomes the fourth component of every tuple of
the `wanted_names` signature used for the idempotence skip
(`networks.py:271`, `networks.py:529`). -/
theorem C10_dyn_dim_defaults (opts : Opts) (te unet : Option (List Mult))
    (dyn : Option (List (Option Mult))) (nets : List LoadedNet)
    (hdyn : dyn = none ∨ dyn = some []) :
    (∀ n ∈ network_load_set_multipliers opts te unet dyn nets,
        n.dyn_dim = some opts.extra_networks_default_multiplier)
    ∧ wantedNames (network_load_set_multipliers opts te unet dyn nets)
        = (network_load_set_multipliers opts te unet dyn nets).map
            (fun n => (n.name, n.te_multiplier, n.unet_multiplier,
              some opts.extra_networks_default_multiplier)) := by
  have hfield : ∀ n ∈ network_load_set_multipliers opts te unet dyn nets,
      n.dyn_dim = some opts.extra_networks_default_multiplier := by
    intro n hn
    simp only [network_load_set_multipliers, List.mem_map] at hn
    obtain ⟨p, _, rfl⟩ := hn
    rcases hdyn with h | h <;> simp [pickDyn, h]
  refine ⟨hfield, ?_⟩
  exact map_congr_mem fun n hn => by rw [hfield n hn]

-- section: claim C4

/-- C4: if two distinct adapter identities registered during one scan map to
the same human-facing alias, `add_network` marks that alias forbidden
(`networks.py:209-210`), and every subsequent resolution of the alias fails
closed (resolves to no adapter) rather than silently picking one of the two,
while both adapters remain individually resolvable by their exact
filename-derived names.  Stated under the alias-preferred-name policy, under
which the alias index is keyed by aliases, and for names that collide
neither with the shared alias nor with the seeded forbidden entries. -/
theorem C4_alias_conflict_fails_closed (opts : Opts) (e1 e2 : NetworkOnDisk)
    (hpref : opts.lora_preferred_name ≠ str ("filename"))
    (halias : e1.aliasName = e2.aliasName)
    (hnames : ¬e1.name = e2.name)
    (hn1a : ¬e1.aliasName = e1.name)
    (hn2a : ¬e1.aliasName = e2.name)
    (hf1 : lookupA initialRegistry.forbidden_network_aliases (toLowerStr e1.name) = none)
    (hf2 : lookupA initialRegistry.forbidden_network_aliases (toLowerStr e2.name) = none)
    (hl1 : toLowerStr e1.name ≠ toLowerStr e1.aliasName)
    (hl2 : toLowerStr e2.name ≠ toLowerStr e1.aliasName) :
    lookupA (add_network opts (add_network opts initialRegistry e1) e2).forbidden_network_aliases
        (toLowerStr e1.aliasName) = some 1
    ∧ resolve_network (add_network opts (add_network opts initialRegistry e1) e2)
        e1.aliasName = none
    ∧ resolve_network (add_network opts (add_network opts initialRegistry e1) e2)
        e1.name = some e1
    ∧ resolve_network (add_network opts (add_network opts initialRegistry e1) e2)
        e2.name = some e2 := by
  have h1n : (add_network opts initialRegistry e1).available_networks = [(e1.name, e1)] := by
    simp [add_network, initialRegistry, insertA]
  have h1al : (add_network opts initialRegistry e1).available_network_aliases
      = [(e1.aliasName, e1)] := by
    simp [add_network, initialRegistry, insertA, hpref]
  have h1f : (add_network opts initialRegistry e1).forbidden_network_aliases
      = initialRegistry.forbidden_network_aliases := by
    simp [add_network, initialRegistry, lookupA]
  have h2n : (add_network opts (add_network opts initialRegistry e1) e2).available_networks
      = [(e1.name, e1), (e2.name, e2)] := by
    simp [add_network, h1n, insertA, hnames]
  have h2al : (add_network opts (add_network opts initialRegistry e1) e2).available_network_aliases
      = [(e1.aliasName, e2)] := by
    conv_lhs => rw [add_network]
    simp [h1al, hpref, ← halias, insertA]
  have h2f : (add_network opts (add_network opts initialRegistry e1) e2).forbidden_network_aliases
      = insertA initialRegistry.forbidden_network_aliases (toLowerStr e1.aliasName) 1 := by
    conv_lhs => rw [add_network]
    simp [h1al, h1f, ← halias, lookupA]
  refine ⟨?_, ?_, ?_, ?_⟩
  · rw [h2f]
    exact lookupA_insertA_self _ _ _
  · simp [resolve_network, h2f, lookupA_insertA_self]
  · rw [resolve_network, h2f, lookupA_insertA_ne _ _ _ _ hl1, hf1]
    simp [h2al, h2n, lookupA, hn1a, hnames]
  · rw [resolve_network, h2f, lookupA_insertA_ne _ _ _ _ hl2, hf2]
    have hnames' : ¬e1.name = e2.name := hnames
    simp [h2al, h2n, lookupA, hn2a, hnames']

/-- Witness for C4: two files with distinct names sharing the alias
"Style". -/
theorem C4_alias_conflict_fails_closed_witness :
    lookupA (add_network
        { lora_fuse_diffusers := false, lora_low_memory := false,
          lora_offload_backup := false, lora_in_memory_limit := 1,
          lora_preferred_name := str ("alias"), extra_networks_default_multiplier := 1 }
        (add_network
          { lora_fuse_diffusers := false, lora_low_memory := false,
            lora_offload_backup := false, lora_in_memory_limit := 1,
            lora_preferred_name := str ("alias"), extra_networks_default_multiplier := 1 }
          initialRegistry ⟨str ("adapter_a"), str ("Style"), []⟩)
        ⟨str ("adapter_b"), str ("Style"), []⟩).forbidden_network_aliases
        (toLowerStr (str ("Style"))) = some 1
    ∧ resolve_network (add_network
        { lora_fuse_diffusers := false, lora_low_memory := false,
          lora_offload_backup := false, lora_in_memory_limit := 1,
          lora_preferred_name := str ("alias"), extra_networks_default_multiplier := 1 }
        (add_network
          { lora_fuse_diffusers := false, lora_low_memory := false,
            lora_offload_backup := false, lora_in_memory_limit := 1,
            lora_preferred_name := str ("alias"), extra_networks_default_multiplier := 1 }
          initialRegistry ⟨str ("adapter_a"), str ("Style"), []⟩)
        ⟨str ("adapter_b"), str ("Style"), []⟩) (str ("Style")) = none
    ∧ resolve_network (add_network
        { lora_fuse_diffusers := false, lora_low_memory := false,
          lora_offload_backup := false, lora_in_memory_limit := 1,
          lora_preferred_name := str ("alias"), extra_networks_default_multiplier := 1 }
        (add_network
          { lora_fuse_diffusers := false, lora_low_memory := false,
            lora_offload_backup := false, lora_in_memory_limit := 1,
            lora_preferred_name := str ("alias"), extra_networks_default_multiplier := 1 }
          initialRegistry ⟨str ("adapter_a"), str ("Style"), []⟩)
        ⟨str ("adapter_b"), str ("Style"), []⟩) (str ("adapter_a"))
        = some ⟨str ("adapter_a"), str ("Style"), []⟩
    ∧ resolve_network (add_network
        { lora_fuse_diffusers := false, lora_low_memory := false,
          lora_offload_backup := false, lora_in_memory_limit := 1,
          lora_preferred_name := str ("alias"), extra_networks_default_multiplier := 1 }
        (add_network
          { lora_fuse_diffusers := false, lora_low_memory := false,
            lora_offload_backup := false, lora_in_memory_limit := 1,
            lora_preferred_name := str ("alias"), extra_networks_default_multiplier := 1 }
          initialRegistry ⟨str ("adapter_a"), str ("Style"), []⟩)
        ⟨str ("adapter_b"), str ("Style"), []⟩) (str ("adapter_b"))
        = some ⟨str ("adapter_b"), str ("Style"), []⟩ :=
  C4_alias_conflict_fails_closed _ ⟨str ("adapter_a"), str ("Style"), []⟩
    ⟨str ("adapter_b"), str ("Style"), []⟩ (by decide) rfl (by decide) (by decide)
    (by decide) (by decide) (by decide) (by decide) (by decide)

-- section: claim C6

/-- C6: for every layer and every active adapter, if that adapter's module
raises during delta computation (`calc_updown`), `network_calc_weights`
increments the error counter keyed by the adapter's name, drops that module's
contribution for the layer (the delta accumulators pass through the failing
step untouched), and continues processing the remaining modules — the whole
pass over the network list is the fold over the networks before the failure,
then the error bump, then the fold over the networks after it
(`networks.py:389-396`).  The second conjunct pins down the counter
semantics: a bump takes the adapter's entry to its old count plus one. -/
theorem C6_calc_error_recorded_and_continues (lname : Str) (w : WeightParam)
    (pre post : List LoadedNet) (net : LoadedNet) (m : NetModule)
    (errors0 : List (Str × Nat))
    (hmod : getModule net lname = some m)
    (hfail : m.outcome = .raises) :
    network_calc_weights lname (some w) (pre ++ net :: post) errors0
      = calcFold lname (some w) post
          { batch_updown := (calcFold lname (some w) pre
              { batch_updown := none, batch_ex_bias := none, errors := errors0 }).batch_updown
            batch_ex_bias := (calcFold lname (some w) pre
              { batch_updown := none, batch_ex_bias := none, errors := errors0 }).batch_ex_bias
            errors := bumpError (calcFold lname (some w) pre
              { batch_updown := none, batch_ex_bias := none, errors := errors0 }).errors
              net.name }
    ∧ ∀ (es : List (Str × Nat)) (nm : Str),
        lookupA (bumpError es nm) nm = some ((lookupA es nm).getD 0 + 1) := by
  constructor
  · simp only [network_calc_weights, calcFold]
    rw [List.foldl_append, List.foldl_cons]
    congr 1
    simp [calcStep, hmod, hfail]
  · intro es nm
    induction es with
    | nil => simp [bumpError, lookupA]
    | cons e rest ih =>
      obtain ⟨k, v⟩ := e
      by_cases h : k = nm
      · simp [bumpError, lookupA, h]
      · simp [bumpError, lookupA, h, ih]

/-- Witness for C6: adapter "bad" owns a raising module at layer "l1",
between two succeeding adapters. -/
theorem C6_calc_error_recorded_and_continues_witness :
    network_calc_weights (str ("l1")) (some ⟨10, none⟩)
        ([⟨str ("a"), 1, 1, none, [(str ("l1"), ⟨.returns (some 3) none⟩)]⟩]
          ++ ⟨str ("bad"), 1, 1, none, [(str ("l1"), ⟨.raises⟩)]⟩
            :: [⟨str ("c"), 1, 1, none, [(str ("l1"), ⟨.returns (some 4) (some 2)⟩)]⟩])
        []
      = calcFold (str ("l1")) (some ⟨10, none⟩)
          [⟨str ("c"), 1, 1, none, [(str ("l1"), ⟨.returns (some 4) (some 2)⟩)]⟩]
          { batch_updown := (calcFold (str ("l1")) (some ⟨10, none⟩)
              [⟨str ("a"), 1, 1, none, [(str ("l1"), ⟨.returns (some 3) none⟩)]⟩]
              { batch_updown := none, batch_ex_bias := none, errors := [] }).batch_updown
            batch_ex_bias := (calcFold (str ("l1")) (some ⟨10, none⟩)
              [⟨str ("a"), 1, 1, none, [(str ("l1"), ⟨.returns (some 3) none⟩)]⟩]
              { batch_updown := none, batch_ex_bias := none, errors := [] }).batch_ex_bias
            errors := bumpError (calcFold (str ("l1")) (some ⟨10, none⟩)
              [⟨str ("a"), 1, 1, none, [(str ("l1"), ⟨.returns (some 3) none⟩)]⟩]
              { batch_updown := none, batch_ex_bias := none, errors := [] }).errors
              (str ("bad")) }
    ∧ ∀ (es : List (Str × Nat)) (nm : Str),
        lookupA (bumpError es nm) nm = some ((lookupA es nm).getD 0 + 1) :=
  C6_calc_error_recorded_and_continues (str ("l1")) ⟨10, none⟩
    [⟨str ("a"), 1, 1, none, [(str ("l1"), ⟨.returns (some 3) none⟩)]⟩]
    [⟨str ("c"), 1, 1, none, [(str ("l1"), ⟨.returns (some 4) (some 2)⟩)]⟩]
    ⟨str ("bad"), 1, 1, none, [(str ("l1"), ⟨.raises⟩)]⟩ ⟨.raises⟩ []
    (by decide) rfl

/-- Witness for C10 with two loaded networks and `dyn_dims=None`. -/
theorem C10_dyn_dim_defaults_witness :
    (∀ n ∈ network_load_set_multipliers
        { lora_fuse_diffusers := false, lora_low_memory := false,
          lora_offload_backup := false, lora_in_memory_limit := 1,
          lora_preferred_name := str ("alias"),
          extra_networks_default_multiplier := 1 }
        (some [2, 3]) none none
        [⟨str ("a"), 0, 0, none, []⟩, ⟨str ("b"), 0, 0, none, []⟩],
        n.dyn_dim = some 1)
    ∧ wantedNames (network_load_set_multipliers
        { lora_fuse_diffusers := false, lora_low_memory := false,
          lora_offload_backup := false, lora_in_memory_limit := 1,
          lora_preferred_name := str ("alias"),
          extra_networks_default_multiplier := 1 }
        (some [2, 3]) none none
        [⟨str ("a"), 0, 0, none, []⟩, ⟨str ("b"), 0, 0, none, []⟩])
        = (network_load_set_multipliers
            { lora_fuse_diffusers := false, lora_low_memory := false,
              lora_offload_backup := false, lora_in_memory_limit := 1,
              lora_preferred_name := str ("alias"),
              extra_networks_default_multiplier := 1 }
            (some [2, 3]) none none
            [⟨str ("a"), 0, 0, none, []⟩, ⟨str ("b"), 0, 0, none, []⟩]).map
            (fun n => (n.name, n.te_multiplier, n.unet_multiplier, some 1)) :=
  C10_dyn_dim_defaults _ (some [2, 3]) none none _ (Or.inl rfl)

-- section: claim C2

lemma activateLayers_post_skip (opts : Opts) (bnbAvail : Bool) (nets : List LoadedNet)
    (wanted : Signature) :
    ∀ (ls : List LayerState) (errors : List (Str × Nat)),
      ∀ l' ∈ (activateLayers opts bnbAvail false nets wanted ls errors).1,
        l'.network_layer_name = none ∨ l'.network_current_names = wanted
  | [], errors => by simp [activateLayers]
  | l :: rest, errors => by
    intro l' hl'
    rcases hn : l.network_layer_name with _ | lname
    · simp only [activateLayers, hn] at hl'
      rcases List.mem_cons.1 hl' with h | h
      · exact Or.inl (h ▸ hn)
      · exact activateLayers_post_skip opts bnbAvail nets wanted rest errors l' h
    · by_cases hc : l.network_current_names = wanted
      · simp only [activateLayers, hn, Bool.false_or] at hl'
        rw [if_pos (by simp [hc])] at hl'
        rcases List.mem_cons.1 hl' with h | h
        · exact Or.inr (h ▸ hc)
        · exact activateLayers_post_skip opts bnbAvail nets wanted rest errors l' h
      · simp only [activateLayers, hn, Bool.false_or] at hl'
        rw [if_neg (fun hh => hc (of_decide_eq_true hh))] at hl'
        rcases List.mem_cons.1 hl' with h | h
        · exact Or.inr (by rw [h])
        · exact activateLayers_post_skip opts bnbAvail nets wanted rest _ l' h

lemma activateLayers_all_skip (opts : Opts) (bnbAvail : Bool) (nets : List LoadedNet)
    (wanted : Signature) :
    ∀ (ls : List LayerState) (errors : List (Str × Nat)),
      (∀ l ∈ ls, l.network_layer_name = none ∨ l.network_current_names = wanted) →
      activateLayers opts bnbAvail false nets wanted ls errors = (ls, errors, ⟨0, 0, 0⟩)
  | [], errors, _ => rfl
  | l :: rest, errors, h => by
    have hrest := activateLayers_all_skip opts bnbAvail nets wanted rest errors
      (fun x hx => h x (by simp [hx]))
    rcases hn : l.network_layer_name with _ | lname
    · simp [activateLayers, hn, hrest]
    · rcases h l (by simp) with h0 | hc
      · rw [hn] at h0
        cases h0
      · simp [activateLayers, hn, hc, hrest]

/-- C2: calling activate twice in a row with an unchanged adapter set
performs zero tensor mutation the second time: after one uninterrupted
`network_activate` pass, every target layer either has no
`network_layer_name` or records exactly the wanted signature
(`networks.py:553`), so a second pass with the same loaded networks skips
every layer (`networks.py:539`), returning the layer list and the error dict
unchanged with zero backup steps, zero delta computations and zero apply
steps. -/
theorem C2_activate_idempotent (opts : Opts) (bnbAvail : Bool) (nets : List LoadedNet)
    (layers : List LayerState) (errors : List (Str × Nat)) :
    network_activate opts bnbAvail false nets
        (network_activate opts bnbAvail false nets layers errors).1
        (network_activate opts bnbAvail false nets layers errors).2.1
      = ((network_activate opts bnbAvail false nets layers errors).1,
         (network_activate opts bnbAvail false nets layers errors).2.1,
         ⟨0, 0, 0⟩) :=
  activateLayers_all_skip opts bnbAvail nets (wantedNames nets) _ _
    (activateLayers_post_skip opts bnbAvail nets (wantedNames nets) layers errors)

-- section: claim C1

lemma calcStep_none_module (lname : Str) (weight : Option WeightParam) (acc : CalcResult)
    (n : LoadedNet) (hm : getModule n lname = none) :
    calcStep lname weight acc n = acc := by
  simp [calcStep, hm]

lemma calcStep_weight_indep (lname : Str) (acc : CalcResult) (n : LoadedNet)
    (w1 w2 : WeightParam) :
    calcStep lname (some w1) acc n = calcStep lname (some w2) acc n := by
  rcases hm : getModule n lname with _ | m <;> simp [calcStep, hm]

lemma calcFold_weight_indep (lname : Str) :
    ∀ (nets : List LoadedNet) (acc : CalcResult) (w1 w2 : WeightParam),
      calcFold lname (some w1) nets acc = calcFold lname (some w2) nets acc
  | [], _, _, _ => rfl
  | n :: rest, acc, w1, w2 => by
    show calcFold lname (some w1) rest (calcStep lname (some w1) acc n)
        = calcFold lname (some w2) rest (calcStep lname (some w2) acc n)
    rw [calcStep_weight_indep lname acc n w1 w2]
    exact calcFold_weight_indep lname rest _ w1 w2

lemma calcFold_batch_indep (lname : Str) (weight : Option WeightParam) :
    ∀ (nets : List LoadedNet) (b x : Option Tensor) (e1 e2 : List (Str × Nat)),
      (calcFold lname weight nets ⟨b, x, e1⟩).batch_updown
        = (calcFold lname weight nets ⟨b, x, e2⟩).batch_updown
      ∧ (calcFold lname weight nets ⟨b, x, e1⟩).batch_ex_bias
        = (calcFold lname weight nets ⟨b, x, e2⟩).batch_ex_bias
  | [], _, _, _, _ => ⟨rfl, rfl⟩
  | n :: rest, b, x, e1, e2 => by
    have hstep : ∀ e : List (Str × Nat), ∃ b' x' : Option Tensor,
        calcStep lname weight ⟨b, x, e1⟩ n = ⟨b', x', (calcStep lname weight ⟨b, x, e1⟩ n).errors⟩
        ∧ calcStep lname weight ⟨b, x, e2⟩ n = ⟨b', x', (calcStep lname weight ⟨b, x, e2⟩ n).errors⟩ := by
      intro e
      rcases hm : getModule n lname with _ | m
      · exact ⟨b, x, by simp [calcStep, hm]⟩
      · rcases hw : weight with _ | w
        · exact ⟨b, x, by simp [calcStep, hm, hw]⟩
        · rcases ho : m.outcome with _ | ⟨u, eb⟩
          · exact ⟨b, x, by simp [calcStep, hm, hw, ho]⟩
          · exact ⟨combineAcc b u, combineAcc x eb, by simp [calcStep, hm, hw, ho]⟩
    obtain ⟨b', x', h1, h2⟩ := hstep e1
    constructor
    · show (calcFold lname weight rest (calcStep lname weight ⟨b, x, e1⟩ n)).batch_updown
          = (calcFold lname weight rest (calcStep lname weight ⟨b, x, e2⟩ n)).batch_updown
      rw [h1, h2]
      exact (calcFold_batch_indep lname weight rest b' x' _ _).1
    · show (calcFold lname weight rest (calcStep lname weight ⟨b, x, e1⟩ n)).batch_ex_bias
          = (calcFold lname weight rest (calcStep lname weight ⟨b, x, e2⟩ n)).batch_ex_bias
      rw [h1, h2]
      exact (calcFold_batch_indep lname weight rest b' x' _ _).2

lemma calc_batch_indep (lname : Str) (w : Option WeightParam) (nets : List LoadedNet)
    (e1 e2 : List (Str × Nat)) :
    (network_calc_weights lname w nets e1).batch_updown
      = (network_calc_weights lname w nets e2).batch_updown
    ∧ (network_calc_weights lname w nets e1).batch_ex_bias
      = (network_calc_weights lname w nets e2).batch_ex_bias :=
  calcFold_batch_indep lname w nets none none e1 e2

lemma calcFold_no_modules (lname : Str) (weight : Option WeightParam) :
    ∀ (nets : List LoadedNet) (acc : CalcResult),
      (∀ n ∈ nets, getModule n lname = none) → calcFold lname weight nets acc = acc
  | [], _, _ => rfl
  | n :: rest, acc, h => by
    show calcFold lname weight rest (calcStep lname weight acc n) = acc
    rw [calcStep_none_module lname weight acc n (h n (by simp))]
    exact calcFold_no_modules lname weight rest acc (fun x hx => h x (by simp [hx]))

lemma calcFold_noweight (lname : Str) :
    ∀ (nets : List LoadedNet) (acc : CalcResult), calcFold lname none nets acc = acc
  | [], _ => rfl
  | n :: rest, acc => by
    show calcFold lname none rest (calcStep lname none acc n) = acc
    rw [show calcStep lname none acc n = acc from by
      rcases hm : getModule n lname with _ | m <;> simp [calcStep, hm]]
    exact calcFold_noweight lname rest acc

lemma backupGate_false_no_modules (nets : List LoadedNet) (lname : Str)
    (hg : backupGate nets lname = false) :
    ∀ n ∈ nets, getModule n lname = none := by
  intro n hn
  rcases Bool.and_eq_false_iff.1 hg with h | h
  · have : nets.length > 0 := List.length_pos.2 (List.ne_nil_of_mem hn)
    simp [this] at h
  · have := List.any_eq_false.1 h n hn
    simpa using this

lemma backupGate_nets_ne_nil (nets : List LoadedNet) (lname : Str)
    (hg : backupGate nets lname = true) : nets ≠ [] := by
  rcases Bool.and_eq_true_iff.1 hg with ⟨h1, _⟩
  exact List.ne_nil_of_length_pos (by simpa using of_decide_eq_true h1)

lemma wantedNames_ne_nil (nets : List LoadedNet) (h : nets ≠ []) :
    wantedNames nets ≠ [] := by
  simp [wantedNames, h]

lemma activateLayers_fst (opts : Opts) (bnbAvail : Bool) (nets : List LoadedNet)
    (wanted : Signature) :
    ∀ (ls : List LayerState) (errors : List (Str × Nat)),
      (activateLayers opts bnbAvail false nets wanted ls errors).1
        = ls.map (activateOne opts bnbAvail nets wanted)
  | [], _ => rfl
  | l :: rest, errors => by
    rcases hn : l.network_layer_name with _ | lname
    · simp only [activateLayers, hn, List.map_cons]
      rw [activateLayers_fst opts bnbAvail nets wanted rest errors]
      congr 1
      simp [activateOne, hn]
    · by_cases hc : l.network_current_names = wanted
      · simp only [activateLayers, hn, Bool.false_or, List.map_cons]
        rw [if_pos (by simp [hc])]
        rw [show (activateOne opts bnbAvail nets wanted l) = l from by
          simp [activateOne, hn, hc]]
        exact congrArg _ (activateLayers_fst opts bnbAvail nets wanted rest errors)
      · have hhead : activateOne opts bnbAvail nets wanted l
            = { (network_apply_weights bnbAvail
                  (network_backup_weights opts bnbAvail nets l l.weight lname wanted)
                  (network_calc_weights lname l.weight nets errors).batch_updown
                  (network_calc_weights lname l.weight nets errors).batch_ex_bias false).1
                with network_current_names := wanted } := by
          simp only [activateOne, hn, hc]
          rw [(calc_batch_indep lname l.weight nets [] errors).1,
            (calc_batch_indep lname l.weight nets [] errors).2]
          simp
        simp only [activateLayers, hn, Bool.false_or, List.map_cons]
        rw [if_neg (fun hh => hc (of_decide_eq_true hh))]
        simp only []
        congr 1
        · exact hhead.symm
        · exact activateLayers_fst opts bnbAvail nets wanted rest _

lemma deactivateLayers_fst (opts : Opts) (bnbAvail : Bool) (nets : List LoadedNet) :
    ∀ (ls : List LayerState) (errors : List (Str × Nat)),
      (deactivateLayers opts bnbAvail false nets ls errors).1
        = ls.map (deactivateOne opts bnbAvail nets)
  | [], _ => rfl
  | l :: rest, errors => by
    rcases hn : l.network_layer_name with _ | lname
    · simp only [deactivateLayers, hn, List.map_cons]
      rw [deactivateLayers_fst opts bnbAvail nets rest errors]
      congr 1
      simp [deactivateOne, hn]
    · simp only [deactivateLayers, hn, Bool.false_eq_true, if_false, List.map_cons]
      congr 1
      · rw [show deactivateOne opts bnbAvail nets l
            = { (network_apply_weights bnbAvail l
                  (network_calc_weights lname l.weight nets []).batch_updown
                  (network_calc_weights lname l.weight nets []).batch_ex_bias true).1
                with network_current_names := [] } from by
          rw [deactivateOne, hn]]
        rw [(calc_batch_indep lname l.weight nets errors []).1,
          (calc_batch_indep lname l.weight nets errors []).2]
      · exact deactivateLayers_fst opts bnbAvail nets rest _

lemma roundtrip_layer (opts : Opts) (bnbAvail : Bool) (nets : List LoadedNet)
    (l : LayerState) (hlow : opts.lora_low_memory = true)
    (hfw : l.network_weights_backup = .noneB) (hfb : l.network_bias_backup = .noneB) :
    layerObservable (deactivateOne opts bnbAvail nets
      (activateOne opts bnbAvail nets (wantedNames nets) l)) = layerObservable l := by
  obtain ⟨nm, wt, bs, wbk, bbk, cur, qt⟩ := l
  simp only at hfw hfb
  subst hfw
  subst hfb
  rcases nm with _ | lname
  · simp [activateOne, deactivateOne]
  by_cases hc : cur = wantedNames nets
  · simp [activateOne, deactivateOne, hc, network_apply_weights, layerObservable]
  by_cases hg : backupGate nets lname = true
  case neg =>
    have hg' : backupGate nets lname = false := by
      revert hg
      cases backupGate nets lname <;> simp
    have hcalc : ∀ (w : Option WeightParam) (e : List (Str × Nat)),
        network_calc_weights lname w nets e
          = { batch_updown := none, batch_ex_bias := none, errors := e } :=
      fun w e => calcFold_no_modules lname w nets _ (backupGate_false_no_modules nets lname hg')
    simp [activateOne, deactivateOne, hc, hg', hcalc, network_backup_weights,
      network_apply_weights, layerObservable]
  case pos =>
    have hwanted := wantedNames_ne_nil nets (backupGate_nets_ne_nil nets lname hg)
    rcases wt with _ | w
    · have hcz : ∀ e : List (Str × Nat), network_calc_weights lname none nets e
          = { batch_updown := none, batch_ex_bias := none, errors := e } :=
        fun e => calcFold_noweight lname nets _
      rcases bs with _ | b <;>
        simp [activateOne, deactivateOne, hc, hg, hcz, network_backup_weights,
          backup_weights_stage, backup_bias_stage, hlow, hwanted, network_apply_weights,
          applyWeightPart, applyBiasPart, layerObservable]
    · have hwi : ∀ (w2 : WeightParam) (e : List (Str × Nat)),
          network_calc_weights lname (some w2) nets e
            = network_calc_weights lname (some w) nets e :=
        fun w2 e => calcFold_weight_indep lname nets _ w2 w
      rcases hdu : (network_calc_weights lname (some w) nets []).batch_updown with _ | u
      · rcases hdb : (network_calc_weights lname (some w) nets []).batch_ex_bias with _ | e <;>
          rcases bs with _ | b <;>
            simp [activateOne, deactivateOne, hc, hg, hwi, hdu, hdb, network_backup_weights,
              backup_weights_stage, backup_bias_stage, hlow, hwanted, network_apply_weights,
              applyWeightPart, applyBiasPart, layerObservable]
      · rcases hdb : (network_calc_weights lname (some w) nets []).batch_ex_bias with _ | e <;>
          rcases bs with _ | b <;>
            by_cases hq : (isQuant4 qt && bnbAvail) = true <;>
              simp [activateOne, deactivateOne, hc, hg, hwi, hdu, hdb, hq,
                network_backup_weights, backup_weights_stage, backup_bias_stage, hlow,
                hwanted, network_apply_weights, applyWeightPart, applyBiasPart,
                layerObservable, add_neg_cancel_right]

/-- C1: for every layer patched by an uninterrupted `network_activate` with
an active adapter set (starting from unpatched layers carrying no backups),
calling `network_deactivate` afterwards restores that layer's live weight
value and bias to the pre-activation values — exactly, since the low-memory
backups recombine in place and deltas cancel.  The deactivation pass does
this by recomputing the same summed delta and subtracting it rather than
restoring a raw snapshot: the second conjunct shows `network_apply_weights`
with `deactivate=True` coincides with applying the negated deltas
(`updown *= -1`, `ex_bias *= -1`; `networks.py:415-416`, `networks.py:434-435`),
and `network_deactivate` feeds it the freshly recomputed accumulators
(`networks.py:486-487`). -/
theorem C1_activate_deactivate_roundtrip (opts : Opts) (bnbAvail : Bool)
    (nets : List LoadedNet) (st : EngineState) (elapsed : Nat)
    (hlow : opts.lora_low_memory = true)
    (hfresh : ∀ l ∈ st.layers,
        l.network_weights_backup = .noneB ∧ l.network_bias_backup = .noneB) :
    (network_deactivate opts bnbAvail false nets elapsed
        (network_activate_state opts bnbAvail false nets st).1).layers.map layerObservable
      = st.layers.map layerObservable
    ∧ ∀ (l : LayerState) (u b : Tensor),
        network_apply_weights bnbAvail l (some u) (some b) true
          = network_apply_weights bnbAvail l (some (-u)) (some (-b)) false := by
  constructor
  · rw [network_deactivate, if_neg (by simp [hlow])]
    show (deactivateLayers opts bnbAvail false nets
        (network_activate_state opts bnbAvail false nets st).1.layers
        (network_activate_state opts bnbAvail false nets st).1.errors).1.map layerObservable
      = st.layers.map layerObservable
    rw [deactivateLayers_fst]
    have h1 : (network_activate_state opts bnbAvail false nets st).1.layers
        = st.layers.map (activateOne opts bnbAvail nets (wantedNames nets)) :=
      activateLayers_fst opts bnbAvail nets (wantedNames nets) st.layers st.errors
    rw [h1, List.map_map, List.map_map]
    exact map_congr_mem fun l hl =>
      roundtrip_layer opts bnbAvail nets l hlow (hfresh l hl).1 (hfresh l hl).2
  · intro l u b
    obtain ⟨nm, wt, bs, wbk, bbk, cur, qt⟩ := l
    rcases wbk with _ | _ | t <;> rcases bbk with _ | _ | t' <;>
      rcases wt with _ | w <;> rcases bs with _ | b' <;>
        by_cases hq : (isQuant4 qt && bnbAvail) = true <;>
          simp [network_apply_weights, applyWeightPart, applyBiasPart, hq]

/-- Witness for C1: one adapter with weight delta 5 and bias delta 2 on one
fresh layer with weight 10 and bias 4, under low-memory mode. -/
theorem C1_activate_deactivate_roundtrip_witness :
    (network_deactivate ⟨false, true, false, 2, str ("alias"), 1⟩
        false false [⟨str ("a"), 1, 1, some 1, [(str ("l1"), ⟨.returns (some 5) (some 2)⟩)]⟩] 3
        (network_activate_state ⟨false, true, false, 2, str ("alias"), 1⟩
          false false [⟨str ("a"), 1, 1, some 1, [(str ("l1"), ⟨.returns (some 5) (some 2)⟩)]⟩]
          ⟨[⟨some (str ("l1")), some ⟨10, none⟩, some 4, .noneB, .noneB, [], none⟩],
            [], ⟨0, 0, 0, 0, 0, 0, 0, 0⟩⟩).1).layers.map layerObservable
      = ([⟨some (str ("l1")), some ⟨10, none⟩, some 4, .noneB, .noneB, [], none⟩]
          : List LayerState).map layerObservable
    ∧ ∀ (l : LayerState) (u b : Tensor),
        network_apply_weights false l (some u) (some b) true
          = network_apply_weights false l (some (-u)) (some (-b)) false :=
  C1_activate_deactivate_roundtrip ⟨false, true, false, 2, str ("alias"), 1⟩ false
    [⟨str ("a"), 1, 1, some 1, [(str ("l1"), ⟨.returns (some 5) (some 2)⟩)]⟩]
    ⟨[⟨some (str ("l1")), some ⟨10, none⟩, some 4, .noneB, .noneB, [], none⟩],
      [], ⟨0, 0, 0, 0, 0, 0, 0, 0⟩⟩ 3 rfl (by decide)

end SDNext
